import Mathlib

/-!
Shallow embedding of the `rcm_validator` repository (a FastAPI claims
validation service) in Lean 4, together with theorems settling the frozen
claims about its specification.

Python strings are modelled as `List Char` (ASCII fragment: the repository
only manipulates ASCII identifiers, codes and messages).  Python dicts with
fixed string keys become structures; dicts used as lookup tables become
association lists; floats (paid amounts, thresholds, confidence scores)
become `ℚ`.  Error-message strings appended by the validators are modelled
by the inductive type `Finding`, one constructor per `errors.append` site in
the source, carrying the data interpolated into the message.
-/

set_option maxRecDepth 10000

namespace RcmValidator

/-- Python `str` modelled as a list of characters. -/
abbrev Str := List Char

/-- ASCII whitespace, as removed by Python `str.strip()`. -/
def isSpaceChar (c : Char) : Bool :=
  c = ' ' || c = '\t' || c = '\n' || c = '\r'

/-- ASCII decimal digit (codepoints 48–57, i.e. `'0'`–`'9'`). -/
def isDigitChar (c : Char) : Bool := decide (48 ≤ c.toNat ∧ c.toNat ≤ 57)

/-- ASCII uppercase letter (codepoints 65–90, i.e. `'A'`–`'Z'`). -/
def isUpperChar (c : Char) : Bool := decide (65 ≤ c.toNat ∧ c.toNat ≤ 90)

/-- ASCII lowercase letter (codepoints 97–122, i.e. `'a'`–`'z'`). -/
def isLowerChar (c : Char) : Bool := decide (97 ≤ c.toNat ∧ c.toNat ≤ 122)

/-- Python per-character `isalnum` (ASCII fragment). -/
def isAlnumChar (c : Char) : Bool :=
  isDigitChar c || isUpperChar c || isLowerChar c

/-- A cased character (ASCII): relevant for Python `str.isupper`. -/
def isCasedChar (c : Char) : Bool := isUpperChar c || isLowerChar c

/-- Uppercase one ASCII character, as Python `str.upper` does per character. -/
def upChar (c : Char) : Char :=
  if isLowerChar c then Char.ofNat (c.toNat - 32) else c

/-- Python `str.upper` (ASCII fragment). -/
def pyUpper (s : Str) : Str := s.map upChar

/-- Python `str.strip()`: drop whitespace from both ends. -/
def pyStrip (s : Str) : Str :=
  ((s.dropWhile isSpaceChar).reverse.dropWhile isSpaceChar).reverse

/-- Python `s.isalnum()`: non-empty and every character alphanumeric. -/
def pyIsAlnum (s : Str) : Bool := !s.isEmpty && s.all isAlnumChar

/-- Python `s.isupper()`: at least one cased character and no lowercase one. -/
def pyIsUpper (s : Str) : Bool :=
  s.any isCasedChar && s.all (fun c => !isLowerChar c)

/-- Python `s.split(sep)` for a single-character separator `sep`. -/
def pySplit (sep : Char) : Str → List Str
  | [] => [[]]
  | c :: rest =>
      if c = sep then [] :: pySplit sep rest
      else
        match pySplit sep rest with
        | [] => [[c]]
        | s :: ss => (c :: s) :: ss

/-- Python `s.replace(old, new)` for single characters with `new` empty:
`s.replace('-', '')` removes every occurrence. -/
def pyRemoveChar (sep : Char) (s : Str) : Str := s.filter (fun c => !(c = sep))

/-- Python substring containment `needle in hay` for strings: the needle
occurs contiguously in the haystack (the empty needle always occurs). -/
def strHasSub (needle : Str) : Str → Bool
  | [] => needle.isEmpty
  | c :: rest => decide (needle = (c :: rest).take needle.length)
      || strHasSub needle rest

/-- One four-character uppercase-alphanumeric segment, the building block of
the unique-id regex `[A-Z0-9]{4}` from the technical rules. -/
def seg4 (s : Str) : Bool :=
  s.length = 4 && s.all (fun c => isUpperChar c || isDigitChar c)

/-- Embedding of `re.match(r"^[A-Z0-9]{4}-[A-Z0-9]{4}-[A-Z0-9]{4}$", uid)`:
a string matches exactly when splitting on `-` gives three four-character
uppercase-alphanumeric segments (such a string contains exactly two hyphens,
at the positions the regex requires). -/
def matchesUidPattern (uid : Str) : Bool :=
  match pySplit '-' uid with
  | [a, b, c] => seg4 a && seg4 b && seg4 c
  | _ => false

/-- Status values (`StatusType` str-enum from `models/schemas.py`). -/
inductive StatusType
  | PENDING
  | VALIDATED
  | NOT_VALIDATED
deriving DecidableEq, Repr

/-- Error classification (`ErrorType` str-enum from `models/schemas.py`). -/
inductive ErrorType
  | NO_ERROR
  | MEDICAL_ERROR
  | TECHNICAL_ERROR
  | BOTH
deriving DecidableEq, Repr

/-- The `.value` string of an `ErrorType` member, as stored in MongoDB. -/
def ErrorType.value : ErrorType → Str
  | .NO_ERROR => "No error".data
  | .MEDICAL_ERROR => "Medical error".data
  | .TECHNICAL_ERROR => "Technical error".data
  | .BOTH => "Both".data

/-- The `.value` string of a `StatusType` member, as stored in MongoDB. -/
def StatusType.value : StatusType → Str
  | .PENDING => "Pending".data
  | .VALIDATED => "Validated".data
  | .NOT_VALIDATED => "Not validated".data

/-- Encounter types (`EncounterType` str-enum from `models/schemas.py`). -/
inductive EncounterType
  | INPATIENT
  | OUTPATIENT
deriving DecidableEq, Repr

/-- Which identifier field a format finding refers to (`national_id`,
`member_id` or `facility_id` in `_validate_id_formats`). -/
inductive IdField
  | national_id
  | member_id
  | facility_id
deriving DecidableEq, Repr

/-- A reason why prior approval is required, accumulated by
`_validate_technical_rules` into `approval_reasons`. -/
inductive ApprovalReason
  | service (code : Str)
  | diagnosis (code : Str)
  | paidAmount (amount threshold : ℚ)
deriving DecidableEq, Repr

/-- One entry of an error list.  Each constructor corresponds to one
`errors.append`/`error_explanation` message produced by the source, carrying
the values interpolated into the f-string. -/
inductive Finding
  | approvalRequired (reason : ApprovalReason) (approval_number : Str)
  | uidBadFormat (uid : Str)
  | uidPlaceholder (uid : Str)
  | firstSegMismatch (got expected : Str)
  | nationalIdTooShort (nid : Str)
  | midSegMismatch (got expected : Str)
  | midSegNotFound (got mid : Str)
  | memberIdTooShort (mid : Str)
  | lastSegMismatch (got expected : Str)
  | facilityIdTooShort (fid : Str)
  | idNotAlnum (field : IdField) (value : Str)
  | idNotUpper (field : IdField) (value : Str)
  | inpatientOnly (svc : Str) (enc : EncounterType)
  | outpatientOnly (svc : Str) (enc : EncounterType)
  | serviceNotAllowed (svc ftype fid : Str)
  | facilityNotRegistered (fid : Str)
  | diagnosisRequiresService (diag : Str) (required : List Str) (svc : Str)
  | mutuallyExclusive (d1 d2 : Str)
  | processingError (msg : Str)
  | aiInsight (text : Str)
deriving DecidableEq, Repr

/-- A validated claim record (`ClaimRecord` in `models/schemas.py`).  Only
the fields read by the validators are carried; `approval_number = None` is
represented by the empty string (the two behave identically in
`has_valid_approval` and `_dict_to_claim_record` always supplies a string). -/
structure ClaimRecord where
  unique_id : Str
  encounter_type : EncounterType
  service_date : Str
  national_id : Str
  member_id : Str
  facility_id : Str
  diagnosis_codes : List Str
  service_code : Str
  paid_amount_aed : ℚ
  approval_number : Str
deriving DecidableEq, Repr

/-- Result of validating one claim (`ValidationResult` in
`models/schemas.py`); `recommended_action` is a derived display string not
referenced by any claim and is not carried. -/
structure ValidationResult where
  unique_id : Str
  status : StatusType
  error_type : ErrorType
  error_explanation : List Finding
  technical_errors : List Finding
  medical_errors : List Finding
deriving DecidableEq, Repr

/-- Association-list lookup, modelling Python `dict.get` on the literal
dict tables of `rule_engine.py` (their keys are distinct, so first-match
lookup agrees with dict lookup). -/
def lookupStr {α : Type} (m : List (Str × α)) (k : Str) : Option α :=
  (m.find? (fun p => decide (p.1 = k))).map (fun p => p.2)

/-- Technical rule configuration (`TechnicalRuleConfig` dataclass).  The
`id_format_rules` dict carries the fixed regex pattern embedded here as
`matchesUidPattern`, so it is not duplicated as a field. -/
structure TechnicalRuleConfig where
  services_requiring_approval : List (Str × Bool)
  diagnosis_requiring_approval : List (Str × Bool)
  paid_amount_threshold : ℚ
deriving DecidableEq, Repr

/-- Medical rule configuration (`MedicalRuleConfig` dataclass). -/
structure MedicalRuleConfig where
  inpatient_only_services : List Str
  outpatient_only_services : List Str
  facility_service_mapping : List (Str × List Str)
  facility_registry : List (Str × Str)
  diagnosis_service_requirements : List (Str × List Str)
  mutually_exclusive_diagnoses : List (Str × Str)
deriving DecidableEq, Repr

/-- The constant technical configuration built by `parse_technical_rules`. -/
def defaultTechnicalConfig : TechnicalRuleConfig where
  services_requiring_approval :=
    [("SRV1001".data, true), ("SRV1002".data, true), ("SRV1003".data, false),
     ("SRV2001".data, false), ("SRV2002".data, false), ("SRV2003".data, false),
     ("SRV2004".data, false), ("SRV2006".data, false), ("SRV2007".data, false),
     ("SRV2008".data, true), ("SRV2010".data, false), ("SRV2011".data, false)]
  diagnosis_requiring_approval :=
    [("E11.9".data, true), ("E66.3".data, false), ("E66.9".data, false),
     ("E88.9".data, false), ("G43.9".data, false), ("J45.909".data, false),
     ("N39.0".data, false), ("R07.9".data, true), ("R51".data, false),
     ("R73.03".data, false), ("Z34.0".data, true)]
  paid_amount_threshold := 250

/-- The constant medical configuration built by `parse_medical_rules`. -/
def defaultMedicalConfig : MedicalRuleConfig where
  inpatient_only_services := ["SRV1001".data, "SRV1002".data, "SRV1003".data]
  outpatient_only_services :=
    ["SRV2001".data, "SRV2002".data, "SRV2003".data, "SRV2004".data,
     "SRV2005".data, "SRV2006".data, "SRV2007".data, "SRV2008".data,
     "SRV2010".data, "SRV2011".data]
  facility_service_mapping :=
    [("MATERNITY_HOSPITAL".data, ["SRV2008".data]),
     ("DIALYSIS_CENTER".data, ["SRV1003".data, "SRV2010".data]),
     ("CARDIOLOGY_CENTER".data, ["SRV2001".data, "SRV2011".data]),
     ("GENERAL_HOSPITAL".data,
      ["SRV1001".data, "SRV1002".data, "SRV1003".data, "SRV2001".data,
       "SRV2002".data, "SRV2003".data, "SRV2004".data, "SRV2006".data,
       "SRV2007".data, "SRV2008".data, "SRV2010".data, "SRV2011".data])]
  facility_registry :=
    [("0DBYE6KP".data, "DIALYSIS_CENTER".data),
     ("2XKSZK4T".data, "MATERNITY_HOSPITAL".data),
     ("7R1VMIGX".data, "CARDIOLOGY_CENTER".data),
     ("96GUDLMT".data, "GENERAL_HOSPITAL".data),
     ("9V7HTI6E".data, "GENERAL_HOSPITAL".data),
     ("EGVP0QAQ".data, "GENERAL_HOSPITAL".data),
     ("EPRETQTL".data, "DIALYSIS_CENTER".data),
     ("FLXFBIMD".data, "GENERAL_HOSPITAL".data),
     ("GLCTDQAJ".data, "MATERNITY_HOSPITAL".data),
     ("GY0GUI8G".data, "GENERAL_HOSPITAL".data),
     ("I2MFYKYM".data, "GENERAL_HOSPITAL".data),
     ("LB7I54Z7".data, "CARDIOLOGY_CENTER".data),
     ("M1XCZVQD".data, "CARDIOLOGY_CENTER".data),
     ("M7DJYNG5".data, "GENERAL_HOSPITAL".data),
     ("MT5W4HIR".data, "MATERNITY_HOSPITAL".data),
     ("OCQUMGDW".data, "GENERAL_HOSPITAL".data),
     ("OIAP2DTP".data, "CARDIOLOGY_CENTER".data),
     ("Q3G9N34N".data, "GENERAL_HOSPITAL".data),
     ("Q8OZ5Z7C".data, "GENERAL_HOSPITAL".data),
     ("RNPGDXCU".data, "MATERNITY_HOSPITAL".data),
     ("S174K5QK".data, "GENERAL_HOSPITAL".data),
     ("SKH7D31V".data, "CARDIOLOGY_CENTER".data),
     ("SZC62NTW".data, "GENERAL_HOSPITAL".data),
     ("VV1GS6P0".data, "MATERNITY_HOSPITAL".data),
     ("ZDE6M6NJ".data, "GENERAL_HOSPITAL".data)]
  diagnosis_service_requirements :=
    [("E11.9".data, ["SRV2007".data]),
     ("J45.909".data, ["SRV2006".data]),
     ("R07.9".data, ["SRV2001".data]),
     ("Z34.0".data, ["SRV2008".data]),
     ("N39.0".data, ["SRV2005".data])]
  mutually_exclusive_diagnoses :=
    [("R73.03".data, "E11.9".data),
     ("E66.9".data, "E66.3".data),
     ("R51".data, "G43.9".data)]

/-- `RuleEngine.parse_technical_rules`: the body only builds literal tables
and never reads `rules_content`; the try/except around pure literal
construction cannot fire. -/
def parse_technical_rules (_rules_content : Str) : TechnicalRuleConfig :=
  defaultTechnicalConfig

/-- `RuleEngine.parse_medical_rules`: likewise a constant independent of
`rules_content`. -/
def parse_medical_rules (_rules_content : Str) : MedicalRuleConfig :=
  defaultMedicalConfig

/-- Mutable state of a `RuleEngine` instance: the two optional configs. -/
structure RuleEngine where
  technical_rules : Option TechnicalRuleConfig
  medical_rules : Option MedicalRuleConfig
deriving DecidableEq, Repr

/-- The helper `has_valid_approval` inside `_validate_technical_rules`. -/
def has_valid_approval (approval_str : Str) : Bool :=
  if approval_str.isEmpty || (pyStrip approval_str).isEmpty then false
  else
    let normalized := pyUpper (pyStrip approval_str)
    !(decide (normalized ∈ ["NA".data, "N/A".data, "NONE".data, "NULL".data,
       "OBTAIN APPROVAL".data, "PENDING".data]))

/-- The `approval_reasons` list accumulated by `_validate_technical_rules`:
one entry for a flagged service code, one per flagged diagnosis code, one for
a paid amount over the threshold, in source order. -/
def approvalReasons (rules : TechnicalRuleConfig) (claim : ClaimRecord) :
    List ApprovalReason :=
  (match lookupStr rules.services_requiring_approval claim.service_code with
   | some true => [ApprovalReason.service claim.service_code]
   | _ => []) ++
  claim.diagnosis_codes.filterMap (fun d =>
    match lookupStr rules.diagnosis_requiring_approval d with
    | some true => some (ApprovalReason.diagnosis d)
    | _ => none) ++
  (if rules.paid_amount_threshold < claim.paid_amount_aed then
    [ApprovalReason.paidAmount claim.paid_amount_aed rules.paid_amount_threshold]
   else [])

/-- Segment checks of `_validate_id_formats` step 3, run only when the
unique-id pattern matches (so the split has exactly three segments). -/
def segmentFindings (claim : ClaimRecord) : List Finding :=
  match pySplit '-' claim.unique_id with
  | [s0, s1, s2] =>
      let nationalU := pyUpper claim.national_id
      let memberU := pyUpper claim.member_id
      let facilityU := pyUpper claim.facility_id
      (if 4 ≤ nationalU.length then
        (if !(s0 = nationalU.take 4) then
          [Finding.firstSegMismatch s0 (nationalU.take 4)] else [])
       else [Finding.nationalIdTooShort claim.national_id]) ++
      (if 8 ≤ memberU.length then
        (if !(s1 = (memberU.drop 2).take 4) then
          [Finding.midSegMismatch s1 ((memberU.drop 2).take 4)] else [])
       else if 4 ≤ memberU.length then
        (if !(strHasSub s1 memberU) then
          [Finding.midSegNotFound s1 claim.member_id] else [])
       else [Finding.memberIdTooShort claim.member_id]) ++
      (if 4 ≤ facilityU.length then
        (if !(s2 = facilityU.drop (facilityU.length - 4)) then
          [Finding.lastSegMismatch s2 (facilityU.drop (facilityU.length - 4))]
         else [])
       else [Finding.facilityIdTooShort claim.facility_id])
  | _ => []

/-- Per-field uppercase/alphanumeric checks of `_validate_id_formats`
step 4, applied to one (field, value) pair. -/
def idFieldFindings (field : IdField) (value : Str) : List Finding :=
  (if !(pyIsAlnum (pyRemoveChar '-' value)) then
    [Finding.idNotAlnum field value] else []) ++
  (if !(value = pyUpper value) then [Finding.idNotUpper field value] else [])

/-- `RuleEngine._validate_id_formats`: pattern check, placeholder check,
segment checks (when the pattern matches) and per-field format checks. -/
def validate_id_formats (claim : ClaimRecord) : List Finding :=
  (if !(matchesUidPattern claim.unique_id) then
    [Finding.uidBadFormat claim.unique_id] else []) ++
  (if pyUpper claim.unique_id ∈
      ["XXXX-YYYY-ZZZZ".data, "XXXX-XXXX-XXXX".data] then
    [Finding.uidPlaceholder claim.unique_id] else []) ++
  (if matchesUidPattern claim.unique_id then segmentFindings claim else []) ++
  idFieldFindings IdField.national_id claim.national_id ++
  idFieldFindings IdField.member_id claim.member_id ++
  idFieldFindings IdField.facility_id claim.facility_id

/-- `RuleEngine._validate_technical_rules` (called with loaded rules):
approval findings, one per accumulated reason when the approval number is
invalid, followed by the identifier-format findings. -/
def validate_technical_rules (rules : TechnicalRuleConfig)
    (claim : ClaimRecord) : List Finding :=
  (if has_valid_approval claim.approval_number then []
   else (approvalReasons rules claim).map
     (fun r => Finding.approvalRequired r claim.approval_number)) ++
  validate_id_formats claim

/-- Mutual-exclusion section (step 4) of `_validate_medical_rules`: one
finding per configured pair with both members present on the claim. -/
def mutualExclusionFindings (pairs : List (Str × Str))
    (diagnosis_codes : List Str) : List Finding :=
  pairs.filterMap (fun p =>
    if p.1 ∈ diagnosis_codes ∧ p.2 ∈ diagnosis_codes then
      some (Finding.mutuallyExclusive p.1 p.2)
    else none)

/-- `RuleEngine._validate_medical_rules` (called with loaded rules). -/
def validate_medical_rules (rules : MedicalRuleConfig)
    (claim : ClaimRecord) : List Finding :=
  (if claim.service_code ∈ rules.inpatient_only_services ∧
      claim.encounter_type ≠ EncounterType.INPATIENT then
    [Finding.inpatientOnly claim.service_code claim.encounter_type] else []) ++
  (if claim.service_code ∈ rules.outpatient_only_services ∧
      claim.encounter_type ≠ EncounterType.OUTPATIENT then
    [Finding.outpatientOnly claim.service_code claim.encounter_type] else []) ++
  (let fidU := pyUpper claim.facility_id
   let direct := lookupStr rules.facility_registry fidU
   let facility_type :=
     match direct with
     | some t => some t
     | none =>
         ((rules.facility_registry.find?
            (fun p => decide (pyUpper p.1 = fidU))).map (fun p => p.2))
   match facility_type with
   | some ftype =>
       let allowed := (lookupStr rules.facility_service_mapping ftype).getD []
       if !(claim.service_code ∈ allowed) then
         [Finding.serviceNotAllowed claim.service_code ftype claim.facility_id]
       else []
   | none => [Finding.facilityNotRegistered claim.facility_id]) ++
  claim.diagnosis_codes.flatMap (fun d =>
    match lookupStr rules.diagnosis_service_requirements d with
    | some required =>
        if !(claim.service_code ∈ required) then
          [Finding.diagnosisRequiresService d required claim.service_code]
        else []
    | none => []) ++
  mutualExclusionFindings rules.mutually_exclusive_diagnoses
    claim.diagnosis_codes

/-- `RuleEngine.validate_claim`: run whichever rule sets are loaded, combine
the error lists and classify. -/
def validate_claim (engine : RuleEngine) (claim : ClaimRecord) :
    ValidationResult :=
  let technical_errors :=
    match engine.technical_rules with
    | some rules => validate_technical_rules rules claim
    | none => []
  let medical_errors :=
    match engine.medical_rules with
    | some rules => validate_medical_rules rules claim
    | none => []
  let all_errors := technical_errors ++ medical_errors
  if all_errors.isEmpty then
    { unique_id := claim.unique_id
      status := StatusType.VALIDATED
      error_type := ErrorType.NO_ERROR
      error_explanation := all_errors
      technical_errors := technical_errors
      medical_errors := medical_errors }
  else
    let error_type :=
      if !technical_errors.isEmpty && !medical_errors.isEmpty then
        ErrorType.BOTH
      else if !technical_errors.isEmpty then ErrorType.TECHNICAL_ERROR
      else if !medical_errors.isEmpty then ErrorType.MEDICAL_ERROR
      else ErrorType.NO_ERROR
    { unique_id := claim.unique_id
      status := StatusType.NOT_VALIDATED
      error_type := error_type
      error_explanation := all_errors
      technical_errors := technical_errors
      medical_errors := medical_errors }

/-- The engine state after `_load_tenant_rules` ran with both a
`technical_rules` and a `medical_rules` entry in the rules config. -/
def loadedEngine : RuleEngine where
  technical_rules := some defaultTechnicalConfig
  medical_rules := some defaultMedicalConfig

/-- Structured LLM response (`llm_service.py` JSON schema; a parsed dict
that passed `_validate_response` has exactly these fields with these
types). -/
structure LLMResponse where
  has_additional_errors : Bool
  additional_errors : List Str
  enhanced_explanation : Str
  recommended_action : Str
  confidence_score : ℚ
deriving DecidableEq, Repr

/-- `LLMService._default_response`: the neutral reply used when the LLM
call fails. -/
def default_response : LLMResponse where
  has_additional_errors := false
  additional_errors := []
  enhanced_explanation := []
  recommended_action := []
  confidence_score := 0

/-- The dict returned by `_extract_and_parse_json` when direct parsing,
fenced-code-block extraction and bare-object extraction all fail.  Note it
has `has_additional_errors = True` and passes `_validate_response`. -/
def parseFallback (raw : Str) : LLMResponse where
  has_additional_errors := true
  additional_errors := ["Could not parse LLM response".data]
  enhanced_explanation := raw.take 500
  recommended_action := "Manual review required".data
  confidence_score := 0

/-- Outcome of one iteration of the retry loop in
`LLMService.evaluate_claim`, abstracting the external transport and the
`json` library: either `chain.invoke` (or the subsequent processing) raised,
or it returned text from which no JSON object could be parsed, or JSON was
parsed but failed the `_validate_response` shape check, or a shape-valid
response was obtained. -/
inductive LLMAttempt
  | transportError
  | parseFailure (raw : Str)
  | badShape
  | good (resp : LLMResponse)
deriving DecidableEq, Repr

/-- `LLMService.evaluate_claim` retry loop over the successive attempt
outcomes (the list has one entry per loop iteration, `max_retries` of them;
running past the end of the list is the post-loop `return
self._default_response()`).  A `parseFailure` produces `parseFallback raw`,
which passes `_validate_response` and is therefore returned immediately;
`transportError` and `badShape` retry, falling back to the default on the
last attempt. -/
def evaluate_claim_llm : List LLMAttempt → LLMResponse
  | [] => default_response
  | a :: rest =>
      match a with
      | .good r => r
      | .parseFailure raw => parseFallback raw
      | .transportError =>
          if rest.isEmpty then default_response else evaluate_claim_llm rest
      | .badShape =>
          if rest.isEmpty then default_response else evaluate_claim_llm rest

/-- The augmentation step of `_process_claims_batch` (`use_llm = True`):
when the LLM result carries a truthy `enhanced_explanation`, the string
`"AI Insight: ..."` is appended to the already-classified static result's
`error_explanation`; `status`, `error_type`, `technical_errors` and
`medical_errors` are left untouched. -/
def augmentResult (static : ValidationResult) (llm : LLMResponse) :
    ValidationResult :=
  if !llm.enhanced_explanation.isEmpty then
    { static with
        error_explanation :=
          static.error_explanation ++ [Finding.aiInsight llm.enhanced_explanation] }
  else static

/-- A raw MongoDB claim document as handed to `_process_claims_batch`
(fields populated by the upload endpoint in `main.py`; `diagnosis_codes`
already a list, the legacy string form is not modelled). -/
structure RawClaimDoc where
  unique_id : Str
  encounter_type : Str
  service_date : Str
  national_id : Str
  member_id : Str
  facility_id : Str
  diagnosis_codes : List Str
  service_code : Str
  paid_amount_aed : ℚ
  approval_number : Str
deriving DecidableEq, Repr

/-- Pydantic coercion of the `EncounterType` str-enum field. -/
def parseEncounterType (s : Str) : Option EncounterType :=
  if s = "INPATIENT".data then some EncounterType.INPATIENT
  else if s = "OUTPATIENT".data then some EncounterType.OUTPATIENT
  else none

/-- The `validate_unique_id_format` pydantic validator on `ClaimRecord`:
returns the error message it raises, or `none` when the value passes. -/
def pydanticUniqueIdCheck (v : Str) : Option Str :=
  let parts := pySplit '-' v
  if !(parts.length = 3) then
    some "unique_id must have format XXXX-XXXX-XXXX".data
  else if !(parts.all (fun p => p.length = 4)) then
    some "Each segment of unique_id must be 4 characters".data
  else if !(parts.all (fun p => pyIsAlnum p && pyIsUpper p)) then
    some "unique_id segments must be uppercase alphanumeric".data
  else none

/-- The `validate_diagnosis_codes` pydantic validator: strip each code and
drop the empty ones. -/
def cleanDiagnosisCodes (v : List Str) : List Str :=
  v.filterMap (fun code =>
    if (pyStrip code).isEmpty then none else some (pyStrip code))

/-- `ValidationService._dict_to_claim_record` followed by `ClaimRecord`
model validation.  No unique-id normalization happens here (it was removed
in favour of upload-time normalization).  A raised exception is modelled as
`Except.error` carrying the exception message. -/
def dict_to_claim_record (d : RawClaimDoc) : Except Str ClaimRecord :=
  let approval_number :=
    if !d.approval_number.isEmpty &&
        decide (pyUpper d.approval_number ∈
          ["NA".data, "N/A".data, "NONE".data, "NULL".data, "NAN".data]) then []
    else d.approval_number
  match parseEncounterType d.encounter_type with
  | none => Except.error "value is not a valid enumeration member".data
  | some enc =>
      if d.paid_amount_aed < 0 then
        Except.error "ensure this value is greater than or equal to 0".data
      else
        match pydanticUniqueIdCheck d.unique_id with
        | some msg => Except.error msg
        | none =>
            Except.ok
              { unique_id := d.unique_id
                encounter_type := enc
                service_date := d.service_date
                national_id := d.national_id
                member_id := d.member_id
                facility_id := d.facility_id
                diagnosis_codes := cleanDiagnosisCodes d.diagnosis_codes
                service_code := d.service_code
                paid_amount_aed := d.paid_amount_aed
                approval_number := approval_number }

/-- Processing of one claim inside `_process_claims_batch`: convert, run
static validation, augment with the LLM result (`use_llm = True`); a raised
exception is caught and converted into the `TechnicalError` fallback result
carrying the exception message as its sole finding.  `llm` is the oracle
giving the (already retried and parsed) LLM response for a claim. -/
def process_claim_entry (engine : RuleEngine)
    (llm : ClaimRecord → LLMResponse) (d : RawClaimDoc) : ValidationResult :=
  match dict_to_claim_record d with
  | Except.ok claim => augmentResult (validate_claim engine claim) (llm claim)
  | Except.error msg =>
      { unique_id := d.unique_id
        status := StatusType.NOT_VALIDATED
        error_type := ErrorType.TECHNICAL_ERROR
        error_explanation := [Finding.processingError msg]
        technical_errors := [Finding.processingError msg]
        medical_errors := [] }

/-- `ValidationService._process_claims_batch`: every document of the batch
is processed in order; the per-claim try/except is `process_claim_entry`. -/
def process_claims_batch (engine : RuleEngine)
    (llm : ClaimRecord → LLMResponse) (batch : List RawClaimDoc) :
    List ValidationResult :=
  batch.map (process_claim_entry engine llm)

/-- Unique-id normalization at upload time (`main.py`, claims upload
endpoint): uppercase and strip, then if the hyphen-free form has exactly 12
characters, re-hyphenate it as XXXX-XXXX-XXXX. -/
def uploadNormalizeUid (raw : Str) : Str :=
  let u := pyUpper (pyStrip raw)
  if (pyRemoveChar '-' u).length = 12 then
    let clean := pyRemoveChar '-' u
    clean.take 4 ++ '-' :: ((clean.drop 4).take 4 ++ '-' :: (clean.drop 8).take 4)
  else u

/-- The 3×4 hyphenated form XXXX-XXXX-XXXX of a 12-character string. -/
def hyphenate3x4 (u : Str) : Str :=
  u.take 4 ++ '-' :: ((u.drop 4).take 4 ++ '-' :: (u.drop 8).take 4)

/-- A claim document as read back by the Analytics Aggregator
(`analytics_service.generate_analytics`): only `status`, `error_type` and
`paid_amount_aed` are consulted; `Option` models a missing dict key, read
through `dict.get` with the defaults below. -/
structure DBClaimDoc where
  status : Option Str
  error_type : Option Str
  paid_amount_aed : ℚ
deriving DecidableEq, Repr

/-- `claim.get("status", "Pending")`. -/
def dbStatus (c : DBClaimDoc) : Str := c.status.getD "Pending".data

/-- `claim.get("error_type", "No error")`. -/
def dbErrorType (c : DBClaimDoc) : Str := c.error_type.getD "No error".data

/-- The four keys of the `error_categories` dict, in source order. -/
def categoryNames : List Str :=
  ["No error".data, "Technical error".data, "Medical error".data, "Both".data]

/-- Number of claims whose `error_type` equals the given category (the
single-pass counter increments of `generate_analytics`). -/
def catCount (claims : List DBClaimDoc) (cat : Str) : Nat :=
  claims.countP (fun c => decide (dbErrorType c = cat))

/-- Total paid amount over the claims of one category. -/
def catAmount (claims : List DBClaimDoc) (cat : Str) : ℚ :=
  ((claims.filter (fun c => decide (dbErrorType c = cat))).map
    (fun c => c.paid_amount_aed)).sum

/-- One row of `error_distribution` together with the percentage carried by
the corresponding `claims_by_error_chart` entry (the chart lists are
per-category projections of the same data). -/
structure CategoryRow where
  error_category : Str
  claim_count : Nat
  total_paid_amount : ℚ
  percentage : ℚ
deriving DecidableEq, Repr

/-- Summary numbers of `AnalyticsService.generate_analytics` plus its
`error_distribution` (categories with zero claims are omitted, percentage
is `count / total * 100`). -/
structure AnalyticsReport where
  total_claims : Nat
  validated : Nat
  not_validated : Nat
  technical_only : Nat
  medical_only : Nat
  both_errors : Nat
  no_errors : Nat
  total_errors : Nat
  error_distribution : List CategoryRow
deriving DecidableEq, Repr

/-- `AnalyticsService.generate_analytics` on the tenant's claim list: the
all-zero early return on an empty list, otherwise single-pass counting by
status and error type and the per-category distribution rows. -/
def generate_analytics (claims : List DBClaimDoc) : AnalyticsReport :=
  if claims.isEmpty then
    { total_claims := 0, validated := 0, not_validated := 0
      technical_only := 0, medical_only := 0, both_errors := 0
      no_errors := 0, total_errors := 0, error_distribution := [] }
  else
    let total := claims.length
    let technical_only := catCount claims "Technical error".data
    let medical_only := catCount claims "Medical error".data
    let both_errors := catCount claims "Both".data
    let no_errors := catCount claims "No error".data
    { total_claims := total
      validated := claims.countP (fun c => decide (dbStatus c = "Validated".data))
      not_validated :=
        claims.countP (fun c => !decide (dbStatus c = "Validated".data))
      technical_only := technical_only
      medical_only := medical_only
      both_errors := both_errors
      no_errors := no_errors
      total_errors := technical_only + medical_only + both_errors
      error_distribution :=
        categoryNames.filterMap (fun cat =>
          let k := catCount claims cat
          if 0 < k then
            some { error_category := cat
                   claim_count := k
                   total_paid_amount := catAmount claims cat
                   percentage := (k : ℚ) / (total : ℚ) * 100 }
          else none) }

/-- A claim used by several concrete tests below: clean under both loaded
rule sets (outpatient ECG at a registered general hospital, matching
identifier segments, amount under the threshold). -/
def cleanClaim : ClaimRecord where
  unique_id := "ABCD-1234-UI8G".data
  encounter_type := EncounterType.OUTPATIENT
  service_date := "2024-01-01".data
  national_id := "ABCD1234XXXX".data
  member_id := "XX12340000".data
  facility_id := "GY0GUI8G".data
  diagnosis_codes := []
  service_code := "SRV2001".data
  paid_amount_aed := 100
  approval_number := []

/-- Claim for the two-trigger approval scenario: flagged service SRV1001
and paid amount 300 over the 250 threshold, empty approval number, and
identifiers that produce no format findings. -/
def twoTriggerClaim : ClaimRecord where
  unique_id := "ABCD-1234-UI8G".data
  encounter_type := EncounterType.INPATIENT
  service_date := "2024-01-01".data
  national_id := "ABCD1234XXXX".data
  member_id := "XX12340000".data
  facility_id := "GY0GUI8G".data
  diagnosis_codes := []
  service_code := "SRV1001".data
  paid_amount_aed := 300
  approval_number := []

/-- Claim carrying both members of the configured mutually-exclusive
diagnosis pair (R73.03, E11.9). -/
def pairClaim : ClaimRecord where
  unique_id := "ABCD-1234-UI8G".data
  encounter_type := EncounterType.OUTPATIENT
  service_date := "2024-01-01".data
  national_id := "ABCD1234XXXX".data
  member_id := "XX12340000".data
  facility_id := "GY0GUI8G".data
  diagnosis_codes := ["R73.03".data, "E11.9".data]
  service_code := "SRV2007".data
  paid_amount_aed := 100
  approval_number := []

/-- Claim family for the identifier-validator scenario: fixed source ids
`national_id = "ABCD1234XXXX"`, `member_id = "XX12340000"`,
`facility_id = "0000WXYZ"`, with the unique id supplied as a parameter.
The other fields are irrelevant to `validate_id_formats`. -/
def idClaim (uid : Str) : ClaimRecord where
  unique_id := uid
  encounter_type := EncounterType.OUTPATIENT
  service_date := "2024-01-01".data
  national_id := "ABCD1234XXXX".data
  member_id := "XX12340000".data
  facility_id := "0000WXYZ".data
  diagnosis_codes := []
  service_code := "SRV2001".data
  paid_amount_aed := 100
  approval_number := []

/-- Recognizer for approval findings (the `Prior approval required ...`
messages of `_validate_technical_rules`). -/
def isApprovalFinding : Finding → Bool
  | Finding.approvalRequired _ _ => true
  | _ => false

/-- A shape-valid LLM reply whose `enhanced_explanation` is non-empty, as a
cooperative Gemini model produces for a clean claim. -/
def insightResponse : LLMResponse where
  has_additional_errors := false
  additional_errors := []
  enhanced_explanation := "Claim is fully compliant".data
  recommended_action := []
  confidence_score := 1

/-- A raw claim document whose conversion raises: `encounter_type`
"EMERGENCY" is not a member of the `EncounterType` enum. -/
def badDoc : RawClaimDoc where
  unique_id := "ABCD-1234-UI8G".data
  encounter_type := "EMERGENCY".data
  service_date := "2024-01-01".data
  national_id := "ABCD1234XXXX".data
  member_id := "XX12340000".data
  facility_id := "GY0GUI8G".data
  diagnosis_codes := []
  service_code := "SRV2001".data
  paid_amount_aed := 100
  approval_number := []

/-- A raw claim document that passes conversion (note the model validation
of `ClaimRecord` requires each unique-id segment to satisfy Python
`isupper`, which an all-digit segment does not, so the uid segments here
each contain a letter). -/
def goodDoc : RawClaimDoc where
  unique_id := "ABCD-WXYZ-UI8G".data
  encounter_type := "OUTPATIENT".data
  service_date := "2024-01-01".data
  national_id := "ABCDWXYZXXXX".data
  member_id := "XXWXYZ0000".data
  facility_id := "GY0GUI8G".data
  diagnosis_codes := []
  service_code := "SRV2001".data
  paid_amount_aed := 100
  approval_number := []

/-! Helper lemmas about the string primitives. -/

theorem toNat_ofNat_lt {n : Nat} (h : n < 55296) : (Char.ofNat n).toNat = n := by
  have hv : n.isValidChar := Or.inl h
  simp [Char.ofNat, dif_pos hv, Char.ofNatAux, Char.toNat, UInt32.toNat]

theorem upChar_of_not_lower {c : Char} (h : isLowerChar c = false) :
    upChar c = c := by
  simp [upChar, h]

theorem upChar_upper_or_digit {c : Char}
    (h : (isUpperChar c || isDigitChar c) = true) : upChar c = c := by
  apply upChar_of_not_lower
  simp only [isUpperChar, isDigitChar, isLowerChar, Bool.or_eq_true,
    decide_eq_true_eq, decide_eq_false_iff_not] at h ⊢
  omega

theorem upChar_alnum {c : Char} (h : isAlnumChar c = true) :
    (isUpperChar (upChar c) || isDigitChar (upChar c)) = true := by
  simp only [isAlnumChar, isDigitChar, isUpperChar, isLowerChar,
    Bool.or_eq_true, decide_eq_true_eq] at h ⊢
  by_cases hl : 97 ≤ c.toNat ∧ c.toNat ≤ 122
  · have hup : upChar c = Char.ofNat (c.toNat - 32) := by
      simp [upChar, isLowerChar, hl]
    rw [hup, toNat_ofNat_lt (by omega)]
    omega
  · have hup : upChar c = c := by simp [upChar, isLowerChar, hl]
    rw [hup]
    omega

theorem upChar_dash : upChar '-' = '-' := by
  apply upChar_of_not_lower
  simp [isLowerChar]

theorem seg4_length {s : Str} (h : seg4 s = true) : s.length = 4 := by
  simp only [seg4, Bool.and_eq_true, decide_eq_true_eq] at h
  exact h.1

theorem seg4_not_dash {s : Str} (h : seg4 s = true) : ∀ c ∈ s, ¬(c = '-') := by
  simp only [seg4, Bool.and_eq_true, List.all_eq_true] at h
  intro c hc heq
  have := h.2 c hc
  subst heq
  simp [isUpperChar, isDigitChar] at this

theorem seg4_upper_fixed {s : Str} (h : seg4 s = true) : pyUpper s = s := by
  simp only [seg4, Bool.and_eq_true, List.all_eq_true] at h
  unfold pyUpper
  conv_rhs => rw [← List.map_id s]
  apply List.map_congr_left
  intro c hc
  exact upChar_upper_or_digit (h.2 c hc)

theorem pySplit_sep_cons (sep : Char) (t : Str) :
    pySplit sep (sep :: t) = [] :: pySplit sep t := by
  simp [pySplit]

theorem pySplit_of_not_mem (sep : Char) (a : Str)
    (ha : ∀ c ∈ a, ¬(c = sep)) : pySplit sep a = [a] := by
  induction a with
  | nil => rfl
  | cons c cs ih =>
      have hc : ¬(c = sep) := ha c (List.mem_cons_self c cs)
      have h2 := ih (fun x hx => ha x (List.mem_cons_of_mem _ hx))
      simp [pySplit, hc, h2]

theorem pySplit_append (sep : Char) (a t : Str)
    (ha : ∀ c ∈ a, ¬(c = sep)) :
    pySplit sep (a ++ sep :: t) = a :: pySplit sep t := by
  induction a with
  | nil => simp [pySplit]
  | cons c cs ih =>
      have hc : ¬(c = sep) := ha c (List.mem_cons_self c cs)
      have h2 := ih (fun x hx => ha x (List.mem_cons_of_mem _ hx))
      simp [pySplit, hc, h2]

theorem dropWhile_eq_self_of {p : Char → Bool} {s : Str}
    (h : ∀ c ∈ s, p c = false) : s.dropWhile p = s := by
  cases s with
  | nil => rfl
  | cons c cs => simp [List.dropWhile_cons, h c (List.mem_cons_self c cs)]

theorem pyStrip_eq_self {s : Str} (h : ∀ c ∈ s, isSpaceChar c = false) :
    pyStrip s = s := by
  unfold pyStrip
  rw [dropWhile_eq_self_of h,
    dropWhile_eq_self_of (fun c hc => h c (List.mem_reverse.mp hc)),
    List.reverse_reverse]

theorem pyRemoveChar_eq_self {s : Str} (h : ∀ c ∈ s, ¬(c = '-')) :
    pyRemoveChar '-' s = s := by
  unfold pyRemoveChar
  apply List.filter_eq_self.mpr
  intro c hc
  simpa using h c hc

/-! Helper lemmas about `validate_claim` and the augmentation step. -/

theorem augmentResult_status (s : ValidationResult) (llm : LLMResponse) :
    (augmentResult s llm).status = s.status := by
  unfold augmentResult
  split <;> rfl

theorem augmentResult_error_type (s : ValidationResult) (llm : LLMResponse) :
    (augmentResult s llm).error_type = s.error_type := by
  unfold augmentResult
  split <;> rfl

theorem augmentResult_of_empty_insight (s : ValidationResult)
    (llm : LLMResponse) (h : llm.enhanced_explanation = []) :
    augmentResult s llm = s := by
  simp [augmentResult, h]

theorem validate_claim_classification (engine : RuleEngine)
    (claim : ClaimRecord) :
    ((validate_claim engine claim).error_type = ErrorType.NO_ERROR ↔
      (validate_claim engine claim).error_explanation = []) ∧
    ((validate_claim engine claim).error_explanation = [] ↔
      (validate_claim engine claim).status = StatusType.VALIDATED) := by
  simp only [validate_claim]
  set te := (match engine.technical_rules with
    | some rules => validate_technical_rules rules claim
    | none => []) with hte
  set me := (match engine.medical_rules with
    | some rules => validate_medical_rules rules claim
    | none => []) with hme
  by_cases h : (te ++ me).isEmpty
  · rw [if_pos h]
    rw [List.isEmpty_iff] at h
    simp [h]
  · rw [if_neg h]
    rw [List.isEmpty_iff] at h
    by_cases ht : te = [] <;> by_cases hm : me = [] <;>
      simp_all [List.isEmpty_iff]

/-- C10: with neither rule configuration loaded (`technical_rules` and
`medical_rules` both `None`), `validate_claim` returns, for every claim, a
result with status Validated, error type NoError and empty error lists. -/
theorem claim10_unconfigured_engine_accepts_everything (claim : ClaimRecord) :
    validate_claim { technical_rules := none, medical_rules := none } claim =
      { unique_id := claim.unique_id
        status := StatusType.VALIDATED
        error_type := ErrorType.NO_ERROR
        error_explanation := []
        technical_errors := []
        medical_errors := [] } := rfl

/-- C9: the rule-configuration parsers ignore their input entirely — for
any two rule-content strings they return the same fixed constants
(hard-coded tables with paid-amount threshold 250). -/
theorem claim9_parsers_ignore_input (s1 s2 : Str) :
    parse_technical_rules s1 = parse_technical_rules s2 ∧
    parse_medical_rules s1 = parse_medical_rules s2 ∧
    parse_technical_rules s1 = defaultTechnicalConfig ∧
    parse_medical_rules s1 = defaultMedicalConfig ∧
    (parse_technical_rules s1).paid_amount_threshold = 250 :=
  ⟨rfl, rfl, rfl, rfl, rfl⟩

/-- C1, counterexample: a claim with zero static findings whose LLM reply
carries a non-empty enhanced explanation is persisted with error type
NoError and status Validated but a NON-empty `error_explanation`, so the
claimed three-way equivalence fails on the final (post-augmentation)
result. -/
theorem claim1_counterexample :
    augmentResult (validate_claim loadedEngine cleanClaim) insightResponse =
      { unique_id := "ABCD-1234-UI8G".data
        status := StatusType.VALIDATED
        error_type := ErrorType.NO_ERROR
        error_explanation :=
          [Finding.aiInsight "Claim is fully compliant".data]
        technical_errors := []
        medical_errors := [] } ∧
    ¬((augmentResult (validate_claim loadedEngine cleanClaim)
        insightResponse).error_type = ErrorType.NO_ERROR ↔
      (augmentResult (validate_claim loadedEngine cleanClaim)
        insightResponse).error_explanation = []) := by
  constructor
  · rfl
  · decide

/-- C1, amended: the three-way equivalence `error_type = NoError ⇔
error_explanation = [] ⇔ status = Validated` holds for the rule-engine
result (pre-augmentation); after augmentation `error_type = NoError ⇔
status = Validated` still holds, and the full equivalence survives exactly
when the LLM enhanced explanation is empty (augmentation appends its
AI-Insight entry without recomputing the classification). -/
theorem claim1_classification_amended (engine : RuleEngine)
    (claim : ClaimRecord) (llm : LLMResponse) :
    ((validate_claim engine claim).error_type = ErrorType.NO_ERROR ↔
      (validate_claim engine claim).error_explanation = []) ∧
    ((validate_claim engine claim).error_explanation = [] ↔
      (validate_claim engine claim).status = StatusType.VALIDATED) ∧
    ((augmentResult (validate_claim engine claim) llm).error_type =
        ErrorType.NO_ERROR ↔
      (augmentResult (validate_claim engine claim) llm).status =
        StatusType.VALIDATED) ∧
    (llm.enhanced_explanation = [] →
      augmentResult (validate_claim engine claim) llm =
        validate_claim engine claim) := by
  obtain ⟨h1, h2⟩ := validate_claim_classification engine claim
  refine ⟨h1, h2, ?_, fun h => augmentResult_of_empty_insight _ _ h⟩
  rw [augmentResult_error_type, augmentResult_status]
  exact h1.trans h2

/-- C1 witness: at a concrete engine, claim and empty-insight LLM reply the
amended statement holds with all hypotheses discharged. -/
theorem claim1_classification_amended_witness :
    (default_response.enhanced_explanation = []) ∧
    (augmentResult (validate_claim loadedEngine cleanClaim)
        default_response = validate_claim loadedEngine cleanClaim) :=
  ⟨rfl, (claim1_classification_amended loadedEngine cleanClaim
    default_response).2.2.2 rfl⟩

/-- C2, counterexample: when the raw LLM reply cannot be parsed as JSON,
`_extract_and_parse_json` returns the error-flagging fallback (which passes
the shape check and is returned on the FIRST attempt), not the neutral
default: it has `has_additional_errors = true`, a non-empty error list and
a non-empty enhanced explanation, and the batch step appends that
explanation to the claim's `error_explanation` as an AI-Insight entry. -/
theorem claim2_counterexample :
    evaluate_claim_llm [LLMAttempt.parseFailure "oops".data,
        LLMAttempt.parseFailure "oops".data] ≠ default_response ∧
    (evaluate_claim_llm [LLMAttempt.parseFailure "oops".data,
        LLMAttempt.parseFailure "oops".data]).has_additional_errors = true ∧
    (evaluate_claim_llm [LLMAttempt.parseFailure "oops".data,
        LLMAttempt.parseFailure "oops".data]).additional_errors ≠ [] ∧
    (augmentResult (validate_claim loadedEngine cleanClaim)
        (evaluate_claim_llm [LLMAttempt.parseFailure "oops".data,
          LLMAttempt.parseFailure "oops".data])).error_explanation =
      [Finding.aiInsight "oops".data] := by
  refine ⟨by decide, rfl, by decide, rfl⟩

/-- C2, amended: transport errors and shape-validation failures persisting
through all retry attempts do yield the neutral default, and the neutral
default adds nothing to the claim's result; but a JSON parse failure
short-circuits the retry loop with the flagged fallback response carrying
the first 500 characters of the raw reply as its enhanced explanation. -/
theorem claim2_default_amended :
    (∀ attempts : List LLMAttempt,
      (∀ a ∈ attempts,
        a = LLMAttempt.transportError ∨ a = LLMAttempt.badShape) →
      evaluate_claim_llm attempts = default_response) ∧
    (∀ s : ValidationResult, augmentResult s default_response = s) ∧
    (∀ (raw : Str) (rest : List LLMAttempt),
      evaluate_claim_llm (LLMAttempt.parseFailure raw :: rest) =
        parseFallback raw) := by
  refine ⟨?_, ?_, fun raw rest => rfl⟩
  · intro attempts h
    induction attempts with
    | nil => rfl
    | cons a rest ih =>
        have ha := h a (List.mem_cons_self a rest)
        have hrest := ih (fun x hx => h x (List.mem_cons_of_mem _ hx))
        rcases ha with rfl | rfl <;>
          · simp only [evaluate_claim_llm]
            split <;> simp [hrest]
  · intro s
    exact augmentResult_of_empty_insight s default_response rfl

/-- C2 witness: the amended statement applied to a concrete exhausted-retry
attempt sequence. -/
theorem claim2_default_amended_witness :
    evaluate_claim_llm [LLMAttempt.transportError, LLMAttempt.badShape] =
      default_response :=
  claim2_default_amended.1
    [LLMAttempt.transportError, LLMAttempt.badShape] (by decide)

/-! Helper lemmas for the technical approval findings (C3). -/

theorem countP_approval_map (l : List ApprovalReason) (a : Str) :
    (l.map (fun r => Finding.approvalRequired r a)).countP isApprovalFinding =
      l.length := by
  induction l with
  | nil => rfl
  | cons r rs ih => simp [List.countP_cons, isApprovalFinding, ih]

theorem countP_approval_idFieldFindings (f : IdField) (v : Str) :
    (idFieldFindings f v).countP isApprovalFinding = 0 := by
  unfold idFieldFindings
  rw [List.countP_append]
  repeat' split
  all_goals simp [isApprovalFinding]

theorem countP_approval_segmentFindings (claim : ClaimRecord) :
    (segmentFindings claim).countP isApprovalFinding = 0 := by
  unfold segmentFindings
  split
  · simp only [List.countP_append]
    repeat' split
    all_goals simp [isApprovalFinding]
  · rfl

theorem countP_approval_id_formats (claim : ClaimRecord) :
    (validate_id_formats claim).countP isApprovalFinding = 0 := by
  unfold validate_id_formats
  simp only [List.countP_append, countP_approval_idFieldFindings]
  repeat' split
  all_goals simp [isApprovalFinding, countP_approval_segmentFindings]

theorem has_valid_approval_eq_false {a : Str}
    (h : a = [] ∨ pyUpper (pyStrip a) ∈
      ["NA".data, "N/A".data, "NONE".data, "NULL".data,
       "OBTAIN APPROVAL".data, "PENDING".data]) :
    has_valid_approval a = false := by
  rcases h with rfl | hmem
  · rfl
  · unfold has_valid_approval
    split
    · rfl
    · simp [hmem]

/-- C3: for every claim whose approval number is empty or a placeholder
token, the technical evaluator emits exactly one approval finding per
accumulated trigger (the count of approval findings equals the length of
the accumulated reason list); in particular the two-trigger claim (flagged
service SRV1001 and paid amount 300 over the 250 threshold, empty approval
number, clean identifiers) yields exactly its two approval findings. -/
theorem claim3_one_finding_per_trigger (rules : TechnicalRuleConfig)
    (claim : ClaimRecord)
    (h : claim.approval_number = [] ∨
      pyUpper (pyStrip claim.approval_number) ∈
        ["NA".data, "N/A".data, "NONE".data, "NULL".data,
         "OBTAIN APPROVAL".data, "PENDING".data]) :
    (validate_technical_rules rules claim).countP isApprovalFinding =
      (approvalReasons rules claim).length ∧
    validate_technical_rules defaultTechnicalConfig twoTriggerClaim =
      [Finding.approvalRequired (ApprovalReason.service "SRV1001".data) [],
       Finding.approvalRequired (ApprovalReason.paidAmount 300 250) []] := by
  constructor
  · have hv := has_valid_approval_eq_false h
    unfold validate_technical_rules
    rw [if_neg (by simp [hv])]
    rw [List.countP_append, countP_approval_map,
      countP_approval_id_formats claim]
    omega
  · rfl

/-- C3 witness: the general count statement applied to the concrete
two-trigger claim, whose approval number is the empty string. -/
theorem claim3_one_finding_per_trigger_witness :
    (validate_technical_rules defaultTechnicalConfig
        twoTriggerClaim).countP isApprovalFinding =
      (approvalReasons defaultTechnicalConfig twoTriggerClaim).length :=
  (claim3_one_finding_per_trigger defaultTechnicalConfig twoTriggerClaim
    (Or.inl rfl)).1

/-- C6: if converting or evaluating one claim of a batch raises, that
claim's result is the NotValidated/TechnicalError fallback carrying the
exception message as its sole finding, while the result list still has one
entry per batch document and every other document is processed normally. -/
theorem claim6_per_claim_isolation (engine : RuleEngine)
    (llm : ClaimRecord → LLMResponse) (batch : List RawClaimDoc)
    (i : Nat) (h : i < batch.length) (msg : Str)
    (herr : dict_to_claim_record (batch.get ⟨i, h⟩) = Except.error msg) :
    (process_claims_batch engine llm batch).length = batch.length ∧
    (process_claims_batch engine llm batch).get
        ⟨i, by simpa [process_claims_batch] using h⟩ =
      { unique_id := (batch.get ⟨i, h⟩).unique_id
        status := StatusType.NOT_VALIDATED
        error_type := ErrorType.TECHNICAL_ERROR
        error_explanation := [Finding.processingError msg]
        technical_errors := [Finding.processingError msg]
        medical_errors := [] } ∧
    ∀ (j : Nat) (hj : j < batch.length),
      (process_claims_batch engine llm batch).get
          ⟨j, by simpa [process_claims_batch] using hj⟩ =
        process_claim_entry engine llm (batch.get ⟨j, hj⟩) := by
  refine ⟨by simp [process_claims_batch], ?_, ?_⟩
  · simp only [process_claims_batch]
    rw [List.get_map]
    show process_claim_entry engine llm (batch.get ⟨i, h⟩) = _
    rw [process_claim_entry.eq_def, herr]
  · intro j hj
    simp only [process_claims_batch]
    rw [List.get_map]

/-- C6 witness: a concrete two-document batch whose first document has an
invalid encounter type; the run produces two results and the first is the
TechnicalError fallback with the exception message as sole finding. -/
theorem claim6_per_claim_isolation_witness :
    (process_claims_batch loadedEngine (fun _ => default_response)
        [badDoc, goodDoc]).length = 2 ∧
    (process_claims_batch loadedEngine (fun _ => default_response)
        [badDoc, goodDoc]).get
        ⟨0, by rw [process_claims_batch, List.length_map]; decide⟩ =
      { unique_id := "ABCD-1234-UI8G".data
        status := StatusType.NOT_VALIDATED
        error_type := ErrorType.TECHNICAL_ERROR
        error_explanation :=
          [Finding.processingError
            "value is not a valid enumeration member".data]
        technical_errors :=
          [Finding.processingError
            "value is not a valid enumeration member".data]
        medical_errors := [] } :=
  ⟨(claim6_per_claim_isolation loadedEngine (fun _ => default_response)
      [badDoc, goodDoc] 0 (by decide)
      "value is not a valid enumeration member".data rfl).1,
   (claim6_per_claim_isolation loadedEngine (fun _ => default_response)
      [badDoc, goodDoc] 0 (by decide)
      "value is not a valid enumeration member".data rfl).2.1⟩

/-! Helper lemmas for the mutual-exclusion section (C7). -/

theorem countP_mutEx_filterMap (pairs : List (Str × Str)) (codes : List Str)
    (d1 d2 : Str) (h1 : d1 ∈ codes) (h2 : d2 ∈ codes) :
    (mutualExclusionFindings pairs codes).countP
        (fun f => decide (f = Finding.mutuallyExclusive d1 d2)) =
      pairs.countP (fun p => decide (p = (d1, d2))) := by
  induction pairs with
  | nil => rfl
  | cons p rest ih =>
      rcases p with ⟨a, b⟩
      simp only [mutualExclusionFindings, List.filterMap_cons] at ih ⊢
      by_cases hab : a ∈ codes ∧ b ∈ codes
      · rw [if_pos hab]
        rw [List.countP_cons, List.countP_cons, ih]
        congr 1
        simp [Prod.mk.injEq, Finding.mutuallyExclusive.injEq]
      · rw [if_neg hab, ih, List.countP_cons]
        have hne : ¬((a, b) = (d1, d2)) := by
          intro he
          rw [Prod.mk.injEq] at he
          exact hab ⟨he.1 ▸ h1, he.2 ▸ h2⟩
        simp [hne]

theorem mutualExclusionFindings_perm (pairs : List (Str × Str))
    {codes codes₂ : List Str} (hp : codes₂.Perm codes) :
    mutualExclusionFindings pairs codes₂ =
      mutualExclusionFindings pairs codes := by
  induction pairs with
  | nil => rfl
  | cons p rest ih =>
      simp only [mutualExclusionFindings, List.filterMap_cons] at ih ⊢
      by_cases hc : p.1 ∈ codes ∧ p.2 ∈ codes
      · rw [if_pos ⟨hp.mem_iff.mpr hc.1, hp.mem_iff.mpr hc.2⟩, if_pos hc, ih]
      · rw [if_neg (fun hh => hc ⟨hp.mem_iff.mp hh.1, hp.mem_iff.mp hh.2⟩),
          if_neg hc, ih]

theorem countP_mutEx_validate_medical (rules : MedicalRuleConfig)
    (claim : ClaimRecord) (d1 d2 : Str) :
    (validate_medical_rules rules claim).countP
        (fun f => decide (f = Finding.mutuallyExclusive d1 d2)) =
      (mutualExclusionFindings rules.mutually_exclusive_diagnoses
          claim.diagnosis_codes).countP
        (fun f => decide (f = Finding.mutuallyExclusive d1 d2)) := by
  unfold validate_medical_rules
  simp only [List.countP_append]
  have z1 : ∀ l : List Finding,
      (∀ x ∈ l, (fun f => decide (f = Finding.mutuallyExclusive d1 d2)) x
        = false) →
      l.countP (fun f => decide (f = Finding.mutuallyExclusive d1 d2)) = 0 :=
    fun l hl => by
      rw [List.countP_eq_zero]
      intro a ha
      simp [hl a ha]
  rw [z1, z1, z1, z1]
  · omega
  · intro x hx
    rw [List.mem_flatMap] at hx
    obtain ⟨d, _, hxd⟩ := hx
    revert hxd
    split
    · split
      · intro hxd
        rcases List.mem_singleton.mp hxd with rfl
        simp
      · intro hxd
        exact absurd hxd (List.not_mem_nil x)
    · intro hxd
      exact absurd hxd (List.not_mem_nil x)
  · intro x hx
    revert hx
    split
    · split
      · intro hx
        rcases List.mem_singleton.mp hx with rfl
        simp
      · intro hx
        exact absurd hx (List.not_mem_nil x)
    · intro hx
      rcases List.mem_singleton.mp hx with rfl
      simp
  · intro x hx
    revert hx
    split
    · intro hx
      rcases List.mem_singleton.mp hx with rfl
      simp
    · intro hx
      exact absurd hx (List.not_mem_nil x)
  · intro x hx
    revert hx
    split
    · intro hx
      rcases List.mem_singleton.mp hx with rfl
      simp
    · intro hx
      exact absurd hx (List.not_mem_nil x)

/-- C7: for every rule configuration in which a mutually-exclusive pair
(d1, d2) is configured exactly once and every claim carrying both members,
the medical evaluator emits exactly one finding for that pair, and the
mutual-exclusion outcome is invariant under any permutation of the claim's
diagnosis list. -/
theorem claim7_mutually_exclusive_pair (rules : MedicalRuleConfig)
    (claim : ClaimRecord) (d1 d2 : Str)
    (hcount : rules.mutually_exclusive_diagnoses.countP
      (fun p => decide (p = (d1, d2))) = 1)
    (h1 : d1 ∈ claim.diagnosis_codes) (h2 : d2 ∈ claim.diagnosis_codes) :
    (validate_medical_rules rules claim).countP
        (fun f => decide (f = Finding.mutuallyExclusive d1 d2)) = 1 ∧
    ∀ codes₂ : List Str, codes₂.Perm claim.diagnosis_codes →
      mutualExclusionFindings rules.mutually_exclusive_diagnoses codes₂ =
        mutualExclusionFindings rules.mutually_exclusive_diagnoses
          claim.diagnosis_codes := by
  constructor
  · rw [countP_mutEx_validate_medical,
      countP_mutEx_filterMap _ _ _ _ h1 h2, hcount]
  · intro codes₂ hp
    exact mutualExclusionFindings_perm _ hp

/-- C7 witness: the configured pair (R73.03, E11.9) both present on a
concrete claim yields exactly one mutual-exclusion finding for the pair. -/
theorem claim7_mutually_exclusive_pair_witness :
    (validate_medical_rules defaultMedicalConfig pairClaim).countP
        (fun f => decide (f =
          Finding.mutuallyExclusive "R73.03".data "E11.9".data)) = 1 :=
  (claim7_mutually_exclusive_pair defaultMedicalConfig pairClaim
    "R73.03".data "E11.9".data (by decide) (by decide) (by decide)).1

/-! Helper lemmas for the analytics aggregation (C8). -/

theorem sum_filterMap_count (claims : List DBClaimDoc) (q : ℚ)
    (cats : List Str) :
    ((cats.filterMap (fun cat =>
        let k := catCount claims cat
        if 0 < k then
          some { error_category := cat
                 claim_count := k
                 total_paid_amount := catAmount claims cat
                 percentage := (k : ℚ) / q * 100 }
        else none)).map (fun r => CategoryRow.claim_count r)).sum =
      (cats.map (fun cat => catCount claims cat)).sum := by
  induction cats with
  | nil => rfl
  | cons c cs ih =>
      by_cases h : 0 < catCount claims c
      · rw [List.filterMap_cons, if_pos h]
        simp only [List.map_cons, List.sum_cons]
        rw [ih]
      · have hz : catCount claims c = 0 := by omega
        rw [List.filterMap_cons, if_neg h]
        simp only [List.map_cons, List.sum_cons]
        rw [ih, hz]
        omega

theorem sum_filterMap_percentage (claims : List DBClaimDoc) (q : ℚ)
    (cats : List Str) :
    ((cats.filterMap (fun cat =>
        let k := catCount claims cat
        if 0 < k then
          some { error_category := cat
                 claim_count := k
                 total_paid_amount := catAmount claims cat
                 percentage := (k : ℚ) / q * 100 }
        else none)).map (fun r => CategoryRow.percentage r)).sum =
      (cats.map (fun cat => (catCount claims cat : ℚ) / q * 100)).sum := by
  induction cats with
  | nil => rfl
  | cons c cs ih =>
      by_cases h : 0 < catCount claims c
      · rw [List.filterMap_cons, if_pos h]
        simp only [List.map_cons, List.sum_cons]
        rw [ih]
      · have hz : catCount claims c = 0 := by omega
        rw [List.filterMap_cons, if_neg h]
        simp only [List.map_cons, List.sum_cons]
        rw [ih, hz]
        simp

theorem sum_catCounts (claims : List DBClaimDoc)
    (hcat : ∀ c ∈ claims, dbErrorType c ∈ categoryNames) :
    (categoryNames.map (fun cat => catCount claims cat)).sum =
      claims.length := by
  induction claims with
  | nil => rfl
  | cons c cs ih =>
      have hc := hcat c (List.mem_cons_self c cs)
      have ih2 := ih (fun x hx => hcat x (List.mem_cons_of_mem _ hx))
      simp only [categoryNames, List.map_cons, List.map_nil, List.sum_cons,
        List.sum_nil, catCount, List.countP_cons, List.length_cons]
        at ih2 hc ⊢
      simp only [List.mem_cons, List.mem_singleton, List.not_mem_nil,
        or_false] at hc
      rcases hc with h | h | h | h <;> simp +decide [h] <;> omega

/-- C8: the Analytics Aggregator returns the all-zero report on the empty
claim set; on a non-empty set in which every claim's error type is one of
the four known categories, the per-category claim counts of the error
distribution sum to the total number of claims and the per-category
percentages sum to exactly 100. -/
theorem claim8_analytics_totals (claims : List DBClaimDoc)
    (hne : claims ≠ [])
    (hcat : ∀ c ∈ claims, dbErrorType c ∈ categoryNames) :
    generate_analytics [] =
      { total_claims := 0, validated := 0, not_validated := 0
        technical_only := 0, medical_only := 0, both_errors := 0
        no_errors := 0, total_errors := 0, error_distribution := [] } ∧
    ((generate_analytics claims).error_distribution.map
      (fun r => CategoryRow.claim_count r)).sum = claims.length ∧
    ((generate_analytics claims).error_distribution.map
      (fun r => CategoryRow.percentage r)).sum = 100 := by
  have hempty : ¬(claims.isEmpty = true) := by
    simpa [List.isEmpty_iff] using hne
  have hlen : claims.length ≠ 0 := by
    simpa [List.length_eq_zero] using hne
  refine ⟨rfl, ?_, ?_⟩
  · simp only [generate_analytics, if_neg hempty]
    rw [sum_filterMap_count claims (claims.length : ℚ) categoryNames]
    exact sum_catCounts claims hcat
  · simp only [generate_analytics, if_neg hempty]
    rw [sum_filterMap_percentage claims (claims.length : ℚ) categoryNames]
    have key : ((categoryNames.map (fun cat => catCount claims cat)).sum : ℚ)
        = (claims.length : ℚ) := by
      exact_mod_cast congrArg (Nat.cast : Nat → ℚ) (sum_catCounts claims hcat)
    simp only [categoryNames, List.map_cons, List.map_nil, List.sum_cons,
      List.sum_nil] at key ⊢
    push_cast at key
    have hLq : (claims.length : ℚ) ≠ 0 := by exact_mod_cast hlen
    field_simp
    linarith [key]

/-- C8 witness: the totals applied to a concrete two-claim set. -/
theorem claim8_analytics_totals_witness :
    ((generate_analytics
        [{ status := some "Validated".data, error_type := some "No error".data
           paid_amount_aed := 100 },
         { status := some "Not validated".data
           error_type := some "Both".data
           paid_amount_aed := 50 }]).error_distribution.map
      (fun r => CategoryRow.claim_count r)).sum = 2 :=
  (claim8_analytics_totals
    [{ status := some "Validated".data, error_type := some "No error".data
       paid_amount_aed := 100 },
     { status := some "Not validated".data, error_type := some "Both".data
       paid_amount_aed := 50 }] (by decide) (by decide)).2.1

/-! Helper lemmas for the identifier validator (C4). -/

theorem not_placeholder_first (s : Str) (hlen : s.length = 4) :
    ¬(s ++ '-' :: ("1234".data ++ '-' :: "WXYZ".data) ∈
      (["XXXX-YYYY-ZZZZ".data, "XXXX-XXXX-XXXX".data] : List Str)) := by
  intro hmem
  rcases List.mem_cons.mp hmem with heq | hmem2
  · have h4 := congrArg (List.drop s.length) heq
    rw [List.drop_left, hlen] at h4
    exact absurd h4 (by decide)
  · have heq := List.mem_singleton.mp hmem2
    have h4 := congrArg (List.drop s.length) heq
    rw [List.drop_left, hlen] at h4
    exact absurd h4 (by decide)

theorem not_placeholder_mid (s : Str) :
    ¬("ABCD".data ++ '-' :: (s ++ '-' :: "WXYZ".data) ∈
      (["XXXX-YYYY-ZZZZ".data, "XXXX-XXXX-XXXX".data] : List Str)) := by
  intro hmem
  have htl : ("ABCD".data ++ '-' :: (s ++ '-' :: "WXYZ".data)).take 4 =
      "ABCD".data := List.take_left' rfl
  rcases List.mem_cons.mp hmem with heq | hmem2
  · have h4 := congrArg (List.take 4) heq
    rw [htl] at h4
    exact absurd h4 (by decide)
  · have heq := List.mem_singleton.mp hmem2
    have h4 := congrArg (List.take 4) heq
    rw [htl] at h4
    exact absurd h4 (by decide)

theorem not_placeholder_last (s : Str) :
    ¬("ABCD".data ++ '-' :: ("1234".data ++ '-' :: s) ∈
      (["XXXX-YYYY-ZZZZ".data, "XXXX-XXXX-XXXX".data] : List Str)) := by
  intro hmem
  have htl : ("ABCD".data ++ '-' :: ("1234".data ++ '-' :: s)).take 4 =
      "ABCD".data := List.take_left' rfl
  rcases List.mem_cons.mp hmem with heq | hmem2
  · have h4 := congrArg (List.take 4) heq
    rw [htl] at h4
    exact absurd h4 (by decide)
  · have heq := List.mem_singleton.mp hmem2
    have h4 := congrArg (List.take 4) heq
    rw [htl] at h4
    exact absurd h4 (by decide)

theorem validate_id_formats_three_segments (s0 s1 s2 : Str)
    (h0 : seg4 s0 = true) (h1 : seg4 s1 = true) (h2 : seg4 s2 = true)
    (hph : ¬(s0 ++ '-' :: (s1 ++ '-' :: s2) ∈
      (["XXXX-YYYY-ZZZZ".data, "XXXX-XXXX-XXXX".data] : List Str))) :
    validate_id_formats (idClaim (s0 ++ '-' :: (s1 ++ '-' :: s2))) =
      (if s0 = "ABCD".data then []
       else [Finding.firstSegMismatch s0 "ABCD".data]) ++
      ((if s1 = "1234".data then []
        else [Finding.midSegMismatch s1 "1234".data]) ++
       (if s2 = "WXYZ".data then []
        else [Finding.lastSegMismatch s2 "WXYZ".data])) := by
  have hsplit : pySplit '-' (s0 ++ '-' :: (s1 ++ '-' :: s2)) =
      [s0, s1, s2] := by
    rw [pySplit_append '-' s0 _ (seg4_not_dash h0),
      pySplit_append '-' s1 _ (seg4_not_dash h1),
      pySplit_of_not_mem '-' s2 (seg4_not_dash h2)]
  have hmatch : matchesUidPattern (s0 ++ '-' :: (s1 ++ '-' :: s2)) = true := by
    unfold matchesUidPattern
    rw [hsplit]
    simp [h0, h1, h2]
  have e0 : List.map upChar s0 = s0 := seg4_upper_fixed h0
  have e1 : List.map upChar s1 = s1 := seg4_upper_fixed h1
  have e2 : List.map upChar s2 = s2 := seg4_upper_fixed h2
  have hupper : pyUpper (s0 ++ '-' :: (s1 ++ '-' :: s2)) =
      s0 ++ '-' :: (s1 ++ '-' :: s2) := by
    unfold pyUpper
    simp [List.map_append, upChar_dash, e0, e1, e2]
  unfold validate_id_formats
  simp only [idClaim]
  rw [hupper, hmatch]
  simp only [Bool.not_true, if_neg hph]
  unfold segmentFindings
  simp only [idClaim]
  rw [hsplit]
  by_cases b0 : s0 = "ABCD".data <;> by_cases b1 : s1 = "1234".data <;>
    by_cases b2 : s2 = "WXYZ".data <;>
    simp +decide [b0, b1, b2, pyUpper, upChar, isLowerChar, idFieldFindings,
      pyIsAlnum, isAlnumChar, isDigitChar, isUpperChar, pyRemoveChar]

/-- C4: the Identifier Validator returns zero findings for unique id
ABCD-1234-WXYZ with national id ABCD1234XXXX, member id XX12340000 and
facility id 0000WXYZ; and replacing exactly one segment by any different
four-character uppercase-alphanumeric string produces exactly the one
mismatch finding for that segment, the other two segment checks staying
silent. -/
theorem claim4_identifier_validator :
    validate_id_formats (idClaim "ABCD-1234-WXYZ".data) = [] ∧
    (∀ s : Str, seg4 s = true → ¬(s = "ABCD".data) →
      validate_id_formats (idClaim (s ++ "-1234-WXYZ".data)) =
        [Finding.firstSegMismatch s "ABCD".data]) ∧
    (∀ s : Str, seg4 s = true → ¬(s = "1234".data) →
      validate_id_formats (idClaim ("ABCD-".data ++ s ++ "-WXYZ".data)) =
        [Finding.midSegMismatch s "1234".data]) ∧
    (∀ s : Str, seg4 s = true → ¬(s = "WXYZ".data) →
      validate_id_formats (idClaim ("ABCD-1234-".data ++ s)) =
        [Finding.lastSegMismatch s "WXYZ".data]) := by
  refine ⟨by decide, ?_, ?_, ?_⟩
  · intro s hs hne
    have hconv : s ++ "-1234-WXYZ".data =
        s ++ '-' :: ("1234".data ++ '-' :: "WXYZ".data) := rfl
    rw [hconv, validate_id_formats_three_segments s "1234".data "WXYZ".data
      hs (by decide) (by decide) (not_placeholder_first s (seg4_length hs))]
    simp +decide [hne]
  · intro s hs hne
    have hconv : "ABCD-".data ++ s ++ "-WXYZ".data =
        "ABCD".data ++ '-' :: (s ++ '-' :: "WXYZ".data) := by
      rw [List.append_assoc]
      rfl
    rw [hconv, validate_id_formats_three_segments "ABCD".data s "WXYZ".data
      (by decide) hs (by decide) (not_placeholder_mid s)]
    simp +decide [hne]
  · intro s hs hne
    have hconv : "ABCD-1234-".data ++ s =
        "ABCD".data ++ '-' :: ("1234".data ++ '-' :: s) := rfl
    rw [hconv, validate_id_formats_three_segments "ABCD".data "1234".data s
      (by decide) (by decide) hs (not_placeholder_last s)]
    simp +decide [hne]

/-- C4 witness: the segment mutation QQQQ at each of the three positions
yields exactly the corresponding single mismatch finding. -/
theorem claim4_identifier_validator_witness :
    validate_id_formats (idClaim ("QQQQ".data ++ "-1234-WXYZ".data)) =
      [Finding.firstSegMismatch "QQQQ".data "ABCD".data] ∧
    validate_id_formats
        (idClaim ("ABCD-".data ++ "QQQQ".data ++ "-WXYZ".data)) =
      [Finding.midSegMismatch "QQQQ".data "1234".data] ∧
    validate_id_formats (idClaim ("ABCD-1234-".data ++ "QQQQ".data)) =
      [Finding.lastSegMismatch "QQQQ".data "WXYZ".data] :=
  ⟨claim4_identifier_validator.2.1 "QQQQ".data (by decide) (by decide),
   claim4_identifier_validator.2.2.1 "QQQQ".data (by decide) (by decide),
   claim4_identifier_validator.2.2.2 "QQQQ".data (by decide) (by decide)⟩

/-! Helper lemmas for upload-time unique-id normalization (C5). -/

theorem alnum_not_space {c : Char} (h : isAlnumChar c = true) :
    isSpaceChar c = false := by
  simp only [isSpaceChar, Bool.or_eq_false_iff, decide_eq_false_iff_not]
  refine ⟨⟨⟨?_, ?_⟩, ?_⟩, ?_⟩ <;>
    · intro heq
      subst heq
      exact absurd h (by decide)

theorem upper_or_digit_ne_dash {c : Char}
    (h : (isUpperChar c || isDigitChar c) = true) : ¬(c = '-') := by
  intro heq
  subst heq
  exact absurd h (by decide)

theorem mem_pyUpper_upper_or_digit {s : Str} (hal : s.all isAlnumChar = true)
    {c : Char} (hc : c ∈ pyUpper s) :
    (isUpperChar c || isDigitChar c) = true := by
  rcases List.mem_map.mp hc with ⟨a, ha, rfl⟩
  exact upChar_alnum (List.all_eq_true.mp hal a ha)

/-- C5: a unique id of 12 contiguous alphanumeric characters is normalized
at upload time to the 3-by-4 hyphenated form of its uppercase version; the
normalized form matches the unique-id regex, and uploading the already
hyphenated id stores the very same string, so the claim is validated
exactly as if its unique id had arrived hyphenated. -/
theorem claim5_upload_normalization (s : Str) (h12 : s.length = 12)
    (hal : s.all isAlnumChar = true) :
    uploadNormalizeUid s = hyphenate3x4 (pyUpper s) ∧
    matchesUidPattern (hyphenate3x4 (pyUpper s)) = true ∧
    uploadNormalizeUid (hyphenate3x4 s) = hyphenate3x4 (pyUpper s) := by
  have hstrip : pyStrip s = s :=
    pyStrip_eq_self (fun c hc => alnum_not_space (List.all_eq_true.mp hal c hc))
  have hud : ∀ c ∈ pyUpper s, (isUpperChar c || isDigitChar c) = true :=
    fun c hc => mem_pyUpper_upper_or_digit hal hc
  have hnodash : ∀ c ∈ pyUpper s, ¬(c = '-') :=
    fun c hc => upper_or_digit_ne_dash (hud c hc)
  have hlen_u : (pyUpper s).length = 12 := by simp [pyUpper, h12]
  have hremove : pyRemoveChar '-' (pyUpper s) = pyUpper s :=
    pyRemoveChar_eq_self hnodash
  have part1 : uploadNormalizeUid s = hyphenate3x4 (pyUpper s) := by
    simp only [uploadNormalizeUid]
    rw [hstrip, hremove, if_pos hlen_u]
    rfl
  refine ⟨part1, ?_, ?_⟩
  · have hta : ∀ c ∈ (pyUpper s).take 4, ¬(c = '-') :=
      fun c hc => hnodash c (List.take_subset _ _ hc)
    have htb : ∀ c ∈ ((pyUpper s).drop 4).take 4, ¬(c = '-') :=
      fun c hc => hnodash c (List.drop_subset _ _ (List.take_subset _ _ hc))
    have htc : ∀ c ∈ ((pyUpper s).drop 8).take 4, ¬(c = '-') :=
      fun c hc => hnodash c (List.drop_subset _ _ (List.take_subset _ _ hc))
    unfold hyphenate3x4 matchesUidPattern
    rw [pySplit_append '-' ((pyUpper s).take 4) _ hta,
      pySplit_append '-' (((pyUpper s).drop 4).take 4) _ htb,
      pySplit_of_not_mem '-' (((pyUpper s).drop 8).take 4) htc]
    have len1 : ((pyUpper s).take 4).length = 4 := by
      rw [List.length_take, hlen_u]
      omega
    have len2 : (((pyUpper s).drop 4).take 4).length = 4 := by
      rw [List.length_take, List.length_drop, hlen_u]
      omega
    have len3 : (((pyUpper s).drop 8).take 4).length = 4 := by
      rw [List.length_take, List.length_drop, hlen_u]
      omega
    have hs1 : seg4 ((pyUpper s).take 4) = true := by
      simp only [seg4, Bool.and_eq_true, decide_eq_true_eq,
        List.all_eq_true]
      exact ⟨len1, fun c hc => hud c (List.take_subset _ _ hc)⟩
    have hs2 : seg4 (((pyUpper s).drop 4).take 4) = true := by
      simp only [seg4, Bool.and_eq_true, decide_eq_true_eq,
        List.all_eq_true]
      exact ⟨len2,
        fun c hc => hud c (List.drop_subset _ _ (List.take_subset _ _ hc))⟩
    have hs3 : seg4 (((pyUpper s).drop 8).take 4) = true := by
      simp only [seg4, Bool.and_eq_true, decide_eq_true_eq,
        List.all_eq_true]
      exact ⟨len3,
        fun c hc => hud c (List.drop_subset _ _ (List.take_subset _ _ hc))⟩
    simp [hs1, hs2, hs3]
  · have hnospace : ∀ c ∈ hyphenate3x4 s, isSpaceChar c = false := by
      intro c hc
      unfold hyphenate3x4 at hc
      have halm : ∀ x ∈ s, isAlnumChar x = true := List.all_eq_true.mp hal
      rcases List.mem_append.mp hc with h1 | h2
      · exact alnum_not_space (halm c (List.take_subset _ _ h1))
      · rcases List.mem_cons.mp h2 with rfl | h3
        · decide
        · rcases List.mem_append.mp h3 with h4 | h5
          · exact alnum_not_space
              (halm c (List.drop_subset _ _ (List.take_subset _ _ h4)))
          · rcases List.mem_cons.mp h5 with rfl | h6
            · decide
            · exact alnum_not_space
                (halm c (List.drop_subset _ _ (List.take_subset _ _ h6)))
    have hstrip3 : pyStrip (hyphenate3x4 s) = hyphenate3x4 s :=
      pyStrip_eq_self hnospace
    have hupper3 : pyUpper (hyphenate3x4 s) = hyphenate3x4 (pyUpper s) := by
      unfold hyphenate3x4 pyUpper
      simp [List.map_append, List.map_take, List.map_drop, upChar_dash]
    have hfa : List.filter (fun c => !(c = '-' : Bool)) ((pyUpper s).take 4) =
        (pyUpper s).take 4 :=
      List.filter_eq_self.mpr (fun c hc => by
        simpa using hnodash c (List.take_subset _ _ hc))
    have hfb : List.filter (fun c => !(c = '-' : Bool))
        (((pyUpper s).drop 4).take 4) = ((pyUpper s).drop 4).take 4 :=
      List.filter_eq_self.mpr (fun c hc => by
        simpa using hnodash c
          (List.drop_subset _ _ (List.take_subset _ _ hc)))
    have hfc : List.filter (fun c => !(c = '-' : Bool))
        (((pyUpper s).drop 8).take 4) = ((pyUpper s).drop 8).take 4 :=
      List.filter_eq_self.mpr (fun c hc => by
        simpa using hnodash c
          (List.drop_subset _ _ (List.take_subset _ _ hc)))
    have hrecomp : (pyUpper s).take 4 ++
        (((pyUpper s).drop 4).take 4 ++ ((pyUpper s).drop 8).take 4) =
        pyUpper s := by
      have hd8 : ((pyUpper s).drop 8).take 4 = (pyUpper s).drop 8 :=
        List.take_all_of_le (by simp [List.length_drop, hlen_u])
      rw [hd8, ← List.append_assoc, ← List.take_add]
      norm_num
    have hrm : pyRemoveChar '-' (hyphenate3x4 (pyUpper s)) = pyUpper s := by
      unfold hyphenate3x4 pyRemoveChar
      simp only [List.filter_append, List.filter_cons]
      simp only [decide_True, Bool.not_true, Bool.false_eq_true, if_false]
      rw [hfa, hfb, hfc]
      exact hrecomp
    simp only [uploadNormalizeUid]
    rw [hstrip3, hupper3, hrm, if_pos hlen_u]
    rfl


/-- C5 witness: the concrete lowercase separator-free id abcd1234wxyz is
stored as ABCD-1234-WXYZ, which matches the unique-id pattern. -/
theorem claim5_upload_normalization_witness :
    uploadNormalizeUid "abcd1234wxyz".data =
      hyphenate3x4 (pyUpper "abcd1234wxyz".data) ∧
    matchesUidPattern (hyphenate3x4 (pyUpper "abcd1234wxyz".data)) = true :=
  ⟨(claim5_upload_normalization "abcd1234wxyz".data rfl rfl).1,
   (claim5_upload_normalization "abcd1234wxyz".data rfl rfl).2.1⟩

end RcmValidator
